import Mathlib

/-!
# Verification of the BCRA dashboard data pipeline

Shallow embedding of the core of `bcra_api_client.py` and
`generate_dashboard.py`: the response normalizer and time-series builder
(`BCRAClient.get_datos_variable`, lines 115-128), the batch orchestrator
(`BCRAClient.get_multiple_variables`, lines 142-152), the transport layer
(`session.get` + `raise_for_status` + `response.json()`, e.g. lines 74-76),
the URL construction of `get_metodologia` / `get_variables_monetarias`
(lines 40-43, 63-66), and the dashboard fetch step (`fetch_datos`,
`generate_dashboard.py` lines 24-53).

JSON values are modelled by the inductive type `Json`; numbers are kept as
`Int` (no claim depends on non-integral values).  Python exceptions are the
inductive `Exc`; a call that can raise returns `Except Exc _`.
-/

namespace BCRA

/-- A parsed JSON value, as returned by `response.json()`. -/
inductive Json where
  | null : Json
  | bool : Bool → Json
  | num : Int → Json
  | str : String → Json
  | arr : List Json → Json
  | obj : List (String × Json) → Json
deriving Repr

mutual

/-- Structural equality on `Json` (Python `==` on parsed JSON values). -/
def Json.beq : Json → Json → Bool
  | .null, .null => true
  | .bool a, .bool b => a == b
  | .num a, .num b => a == b
  | .str a, .str b => a == b
  | .arr xs, .arr ys => Json.beqList xs ys
  | .obj fs, .obj gs => Json.beqFields fs gs
  | _, _ => false

def Json.beqList : List Json → List Json → Bool
  | [], [] => true
  | x :: xs, y :: ys => Json.beq x y && Json.beqList xs ys
  | _, _ => false

def Json.beqFields : List (String × Json) → List (String × Json) → Bool
  | [], [] => true
  | (k, x) :: xs, (l, y) :: ys => k == l && Json.beq x y && Json.beqFields xs ys
  | _, _ => false

end

mutual

theorem Json.beq_iff : ∀ a b : Json, Json.beq a b = true ↔ a = b
  | .null, .null => by simp [Json.beq]
  | .bool a, .bool b => by simp [Json.beq]
  | .num a, .num b => by simp [Json.beq]
  | .str a, .str b => by simp [Json.beq]
  | .arr xs, .arr ys => by
      simp only [Json.beq, Json.beqList_iff xs ys, Json.arr.injEq]
  | .obj fs, .obj gs => by
      simp only [Json.beq, Json.beqFields_iff fs gs, Json.obj.injEq]
  | .null, .bool _ | .null, .num _ | .null, .str _ | .null, .arr _ | .null, .obj _
  | .bool _, .null | .bool _, .num _ | .bool _, .str _ | .bool _, .arr _ | .bool _, .obj _
  | .num _, .null | .num _, .bool _ | .num _, .str _ | .num _, .arr _ | .num _, .obj _
  | .str _, .null | .str _, .bool _ | .str _, .num _ | .str _, .arr _ | .str _, .obj _
  | .arr _, .null | .arr _, .bool _ | .arr _, .num _ | .arr _, .str _ | .arr _, .obj _
  | .obj _, .null | .obj _, .bool _ | .obj _, .num _ | .obj _, .str _ | .obj _, .arr _ =>
      by simp [Json.beq]

theorem Json.beqList_iff : ∀ xs ys : List Json, Json.beqList xs ys = true ↔ xs = ys
  | [], [] => by simp [Json.beqList]
  | x :: xs, y :: ys => by
      simp only [Json.beqList, Bool.and_eq_true, Json.beq_iff x y,
        Json.beqList_iff xs ys, List.cons.injEq]
  | [], _ :: _ => by simp [Json.beqList]
  | _ :: _, [] => by simp [Json.beqList]

theorem Json.beqFields_iff :
    ∀ xs ys : List (String × Json), Json.beqFields xs ys = true ↔ xs = ys
  | [], [] => by simp [Json.beqFields]
  | (k, x) :: xs, (l, y) :: ys => by
      simp only [Json.beqFields, Bool.and_eq_true, Json.beq_iff x y,
        Json.beqFields_iff xs ys, List.cons.injEq, Prod.mk.injEq, beq_iff_eq,
        and_assoc]
  | [], _ :: _ => by simp [Json.beqFields]
  | _ :: _, [] => by simp [Json.beqFields]

end

instance : DecidableEq Json := fun a b =>
  decidable_of_iff (Json.beq a b = true) (Json.beq_iff a b)

deriving instance DecidableEq for Except

/-- Python exceptions that the modelled code can raise.  The first three
constructors are the `requests` library's failures (all subclasses of
`requests.exceptions.RequestException`): HTTP error statuses from
`raise_for_status`, connection/network failures, and JSON-decode failures
of `response.json()`. -/
inductive Exc where
  | httpError (status : Nat) (msg : String)
  | connectionError (msg : String)
  | jsonDecodeError (msg : String)
  | keyError (key : String)
  | typeError (msg : String)
  | parseError (msg : String)
deriving Repr, DecidableEq

/-- Is the exception one of the `requests` transport failures
(`requests.exceptions.RequestException` and subclasses)? -/
def Exc.isTransport : Exc → Bool
  | .httpError _ _ => true
  | .connectionError _ => true
  | .jsonDecodeError _ => true
  | _ => false

/-- Substring test, Python `needle in haystack` for strings. -/
def strContains (haystack needle : String) : Bool :=
  (List.range (haystack.length + 1)).any fun i =>
    needle.data.isPrefixOf (haystack.data.drop i)

/-- Python's `key in value` membership test: key lookup for a `dict`,
element equality for a `list`, substring test for a `str`; `in` raises
`TypeError` on non-iterable values (`None`, booleans, numbers). -/
def pyContains (j : Json) (key : String) : Except Exc Bool :=
  match j with
  | .obj fields => .ok (fields.any fun p => p.1 == key)
  | .arr xs => .ok (xs.any fun x => match x with | .str s => s == key | _ => false)
  | .str s => .ok (strContains s key)
  | _ => .error (.typeError "argument of type is not iterable")

/-- Python's `value[key]` subscript with a string key: `dict` lookup
(`KeyError` when absent), `TypeError` for every other value (list and
string subscripts must be integers). -/
def pyIndex (j : Json) (key : String) : Except Exc Json :=
  match j with
  | .obj fields =>
    match fields.lookup key with
    | some v => .ok v
    | none => .error (.keyError key)
  | _ => .error (.typeError "subscript key must be an integer")

/-- The value `pd.DataFrame(x)` is built from, before any date handling.
`pd.DataFrame` of a list keeps the list's elements as the rows; a mapping
is interpreted column-wise and a scalar is rejected — both are outside the
three envelope shapes the client supports, so they are kept symbolic. -/
inductive PreFrame where
  | rows (rs : List Json)
  | fromDict (fields : List (String × Json))
  | fromScalar (j : Json)
deriving Repr, DecidableEq

/-- Model of `pd.DataFrame(x)` as invoked by the normalizer. -/
def pdDataFrame : Json → PreFrame
  | .arr xs => .rows xs
  | .obj fields => .fromDict fields
  | j => .fromScalar j

/-- Envelope normalization, `bcra_api_client.py` lines 115-123 and 128:

```
if 'results' in data:
    results = data['results']
    if isinstance(results, dict) and 'detalle' in results:
        df = pd.DataFrame(results['detalle'])
    elif isinstance(results, list) and len(results) > 0 and 'detalle' in results[0]:
        df = pd.DataFrame(results[0]['detalle'])
    else:
        df = pd.DataFrame(results)
    ...
return pd.DataFrame()
```
-/
def normalize (data : Json) : Except Exc PreFrame := do
  let hasResults ← pyContains data "results"
  if hasResults then
    let results ← pyIndex data "results"
    match results with
    | .obj fields =>
      if fields.any (fun p => p.1 == "detalle") then
        return pdDataFrame ((fields.lookup "detalle").getD .null)
      else
        return pdDataFrame (.obj fields)
    | .arr xs =>
      match xs with
      | [] => return pdDataFrame (.arr xs)
      | x :: _ => do
        let hasDetalle ← pyContains x "detalle"
        if hasDetalle then
          return pdDataFrame (← pyIndex x "detalle")
        else
          return pdDataFrame (.arr xs)
    | other => return pdDataFrame other
  else
    return .rows []

/-! ## Time-series builder (`get_datos_variable`, lines 124-127)

```
if not df.empty and 'fecha' in df.columns:
    df['fecha'] = pd.to_datetime(df['fecha'])
    df = df.sort_values('fecha')
return df
```

`pd.to_datetime` string parsing is modelled for ISO `YYYY-MM-DD` strings,
the format the upstream API emits; a date is encoded as the integer
`y * 10000 + m * 100 + d`, which orders ISO dates exactly as the calendar
does.  `df.sort_values('fecha')` uses pandas' default `kind='quicksort'`,
which the pandas documentation states is **not stable**; it is therefore
modelled relationally: the output is some permutation of the keyed rows
that is non-decreasing in the parsed date, with no constraint on the
relative order of equal dates. -/

/-- Split a character list into the groups separated by `'-'`. -/
def splitDash : List Char → List (List Char)
  | [] => [[]]
  | c :: rest =>
    if c = '-' then [] :: splitDash rest
    else
      match splitDash rest with
      | [] => [[c]]
      | g :: gs => (c :: g) :: gs

/-- The numeric value of a decimal digit character. -/
def digitVal? (c : Char) : Option Nat :=
  if '0' ≤ c ∧ c ≤ '9' then some (c.toNat - '0'.toNat) else none

/-- Parse a non-empty all-digit character list as a decimal number. -/
def digitsToNat? (cs : List Char) : Option Nat :=
  match cs with
  | [] => none
  | _ =>
    cs.foldl (fun acc c => acc.bind fun a => (digitVal? c).map fun d => 10 * a + d)
      (some 0)

/-- Parse an ISO `YYYY-MM-DD` date string to its integer encoding. -/
def parseIsoDate (s : String) : Option Int :=
  match splitDash s.data with
  | [y, m, d] =>
    match digitsToNat? y, digitsToNat? m, digitsToNat? d with
    | some yn, some mn, some dn =>
      if 1 ≤ mn ∧ mn ≤ 12 ∧ 1 ≤ dn ∧ dn ≤ 31 then
        some ((yn * 10000 + mn * 100 + dn : Nat) : Int)
      else none
    | _, _, _ => none
  | _ => none

/-- Model of `pd.to_datetime` on one cell of the `fecha` column.  A missing cell
(`NaN`, from a record without the key) and JSON `null` become `NaT`
(`none`); a parsable ISO string becomes its date; a number is accepted by
pandas as an epoch offset (kept as itself); anything else raises. -/
def toDatetime : Option Json → Except Exc (Option Int)
  | none => .ok none
  | some .null => .ok none
  | some (.str s) =>
    match parseIsoDate s with
    | some d => .ok (some d)
    | none => .error (.parseError s)
  | some (.num n) => .ok (some n)
  | some _ => .error (.parseError "not a datetime value")

/-- Does a row, as a mapping, carry the given key?  Non-dict rows carry
no keys. -/
def hasKey : Json → String → Bool
  | .obj fields, k => fields.any fun p => p.1 == k
  | _, _ => false

/-- The `fecha` cell of one row: key lookup for a dict row; a non-dict row
contributes a missing cell to the column. -/
def fechaCell : Json → Option Json
  | .obj fields => fields.lookup "fecha"
  | _ => none

/-- The test `'fecha' in df.columns`: the column exists when at least one row is a
mapping with a `fecha` key. -/
def hasFechaCol (rs : List Json) : Bool :=
  rs.any fun r => hasKey r "fecha"

/-- Model of `pd.to_datetime(df['fecha'])`: eagerly parse every row's date cell,
pairing each row with its parsed date.  The first unparsable cell raises. -/
def keyedRows (rs : List Json) : Except Exc (List (Option Int × Json)) :=
  rs.mapM fun r => do pure (← toDatetime (fechaCell r), r)

/-- Date-key comparison used by `df.sort_values('fecha')`; `NaT` sorts
last (pandas default `na_position='last'`). -/
def keyLe : Option Int → Option Int → Bool
  | some a, some b => a ≤ b
  | some _, none => true
  | none, some _ => false
  | none, none => true

/-- The keyed rows are in non-decreasing date order. -/
def sortedByFecha : List (Option Int × Json) → Bool
  | [] => true
  | [_] => true
  | p :: q :: t => keyLe p.1 q.1 && sortedByFecha (q :: t)

/-- Result of the builder step on a frame of rows: the frame returned
untouched (empty frame or no `fecha` column), the frame with the `fecha`
column parsed and sorted by it (each row paired with its parsed date), or
a raised exception. -/
inductive BuildOut where
  | frame (rs : List Json)
  | sortedFrame (ks : List (Option Int × Json))
  | raised (e : Exc)
deriving Repr, DecidableEq

/-- Is the returned frame empty (`df.empty`)? -/
def BuildOut.isEmptyDf : BuildOut → Bool
  | .frame rs => rs.isEmpty
  | .sortedFrame ks => ks.isEmpty
  | .raised _ => false

/-- The builder, lines 124-127, as a relation between the normalized rows
and the outcome.  The sort is pandas' default unstable quicksort, so the
sorted branch admits every date-ordered permutation of the keyed rows. -/
def buildRel (rs : List Json) (out : BuildOut) : Prop :=
  if !rs.isEmpty && hasFechaCol rs then
    match keyedRows rs with
    | .error e => out = .raised e
    | .ok ks => ∃ ks', ks.Perm ks' ∧ sortedByFecha ks' = true ∧ out = .sortedFrame ks'
  else
    out = .frame rs

/-! ## Batch orchestrator (`get_multiple_variables`, lines 142-152)

```
resultados = {}
for id_var in ids_variables:
    try:
        df = self.get_datos_variable(id_var, dias_atras)
        resultados[id_var] = df
    except Exception as e:
        print(f"Error al obtener variable {id_var}: {e}")
        resultados[id_var] = pd.DataFrame()
return resultados
```

A Python `dict` is modelled as an insertion-ordered association list with
replace-in-place update.  The per-identifier pipeline
(`get_datos_variable`) is abstracted by an outcome function
`Int → BuildOut`: a `.raised` outcome is an exception escaping
`get_datos_variable`, any other outcome is the returned frame. -/

/-- Python `d[k] = v` on an insertion-ordered dict: replace in place if
the key exists, append otherwise. -/
def dictInsert {α : Type} (m : List (Int × α)) (k : Int) (v : α) :
    List (Int × α) :=
  if m.any (fun p => p.1 == k) then
    m.map fun p => if p.1 == k then (k, v) else p
  else
    m ++ [(k, v)]

/-- Python `d.get(k)`. -/
def dictGet {α : Type} (m : List (Int × α)) (k : Int) : Option α :=
  (m.find? fun p => p.1 == k).map Prod.snd

/-- Python `k in d` on the modelled dict. -/
def keyMem {α : Type} (m : List (Int × α)) (i : Int) : Bool :=
  m.any fun p => p.1 == i

/-- The value the orchestrator stores for one identifier: the frame the
pipeline returned, or the empty frame when the pipeline raised (the
`except` branch, line 150). -/
def catchOutcome (outcome : Int → BuildOut) (i : Int) : BuildOut :=
  match outcome i with
  | .raised _ => .frame []
  | df => df

/-- The orchestrator `get_multiple_variables`, lines 142-152, parameterized by the
per-identifier outcome of `get_datos_variable`. -/
def get_multiple_variables (outcome : Int → BuildOut) (ids : List Int) :
    List (Int × BuildOut) :=
  ids.foldl
    (fun resultados id_var =>
      match outcome id_var with
      | .raised _ => dictInsert resultados id_var (.frame [])
      | df => dictInsert resultados id_var df)
    []

/-! ## Transport layer (`get_variables_monetarias`, lines 63-76, and
`get_metodologia`, lines 40-47)

The HTTP exchange underneath `self.session.get(url)` is abstracted by an
`HttpResult`: either a network failure or a response with a status code
and a body given by its JSON-parse outcome (`none` = not valid JSON).
Redirect statuses with a `Location` header are followed inside `requests`,
so the status here is the one of the final response delivered to the
client code. -/

/-- Outcome of the HTTP exchange done by `self.session.get(url)`. -/
inductive HttpResult where
  | connFail (msg : String)
  | response (status : Nat) (body : Option Json)
deriving Repr, DecidableEq

/-- Does `response.raise_for_status()` raise?  The `requests` library
raises `HTTPError` exactly for client errors (400-499) and server errors
(500-599). -/
def raiseForStatus (status : Nat) : Bool :=
  (400 ≤ status && status < 500) || (500 ≤ status && status < 600)

/-- Is the status a 2xx success? -/
def is2xx (status : Nat) : Bool :=
  200 ≤ status && status < 300

/-- The shared transport pattern of `get_variables_monetarias` (lines
74-76) and `get_metodologia` (lines 45-47):

```
response = self.session.get(url, params=params)
response.raise_for_status()
return response.json()
```
-/
def session_get : HttpResult → Except Exc Json
  | .connFail msg => .error (.connectionError msg)
  | .response status body =>
    if raiseForStatus status then
      .error (.httpError status ("Error for url: " ++ toString status))
    else
      match body with
      | none => .error (.jsonDecodeError "Expecting value")
      | some j => .ok j

/-- Python truthiness of an `Optional[int]`: `None` and `0` are falsy. -/
def pyTruthyInt : Option Int → Bool
  | none => false
  | some n => n != 0

def BASE_URL : String := "https://api.bcra.gob.ar/estadisticas/v4.0"

/-- Render the identifier into the URL path (only reached when truthy). -/
def optIntStr : Option Int → String
  | some i => toString i
  | none => "None"

/-- URL built by `get_metodologia`, lines 40-43:
`if id_variable: url = f"{BASE_URL}/Metodologia/{id_variable}" else ...`. -/
def get_metodologia_url (id_variable : Option Int) : String :=
  if pyTruthyInt id_variable then
    BASE_URL ++ "/Metodologia/" ++ optIntStr id_variable
  else
    BASE_URL ++ "/Metodologia"

/-- URL built by `get_variables_monetarias`, lines 63-66:
`if id_variable: url = f"{BASE_URL}/Monetarias/{id_variable}" else ...`. -/
def get_variables_monetarias_url (id_variable : Option Int) : String :=
  if pyTruthyInt id_variable then
    BASE_URL ++ "/Monetarias/" ++ optIntStr id_variable
  else
    BASE_URL ++ "/Monetarias"

/-! ## Dashboard fetch step (`generate_dashboard.py`, lines 13-53) -/

/-- Static description of one dashboard variable (`VARIABLES` values). -/
structure VarInfo where
  nombre : String
  unidad : String
  archivo : String
deriving Repr, DecidableEq

/-- The table `VARIABLES`, `generate_dashboard.py` lines 13-19. -/
def VARIABLES : List (Int × VarInfo) :=
  [(1, ⟨"Reservas Internacionales", "USD millones", "reservas"⟩),
   (4, ⟨"Tipo de Cambio (B 9791)", "ARS/USD", "tipo_cambio_oficial"⟩),
   (5, ⟨"TC Referencia (A 3500)", "ARS/USD", "tipo_cambio_referencia"⟩),
   (12, ⟨"Tasa Plazo Fijo", "% TNA", "tasa_plazo_fijo"⟩),
   (15, ⟨"Base Monetaria", "millones ARS", "base_monetaria"⟩)]

/-- One entry of the report-input mapping built by `fetch_datos`. -/
structure Entry where
  nombre : String
  unidad : String
  fechas : List (Option Int)
  valores : List Json
  ultimo : Option Json
deriving Repr, DecidableEq

/-- The `valor` cell of a sorted-frame row (missing → `NaN`, kept as
`null`). -/
def valorCell : Json → Json
  | .obj fields => (fields.lookup "valor").getD .null
  | _ => .null

/-- The body of `fetch_datos`'s `try` block for one variable, lines
31-47: an exception anywhere inside it (including the `df["fecha"]` /
`df["valor"]` column accesses) is caught by the `except` and produces no
entry; an empty frame takes the `else` branch ("Sin datos") and also
produces no entry.  A raw (unsorted) frame is non-empty only when it has
no parsed `fecha` column, so its `df["fecha"].dt` access raises and it
produces no entry either. -/
def tryEntry (info : VarInfo) (df : BuildOut) : Option Entry :=
  match df with
  | .raised _ => none
  | .frame _ => none
  | .sortedFrame [] => none
  | .sortedFrame ks =>
    if ks.any (fun p => hasKey p.2 "valor") then
      let valores := ks.map fun p => valorCell p.2
      some ⟨info.nombre, info.unidad, ks.map Prod.fst, valores, valores.getLast?⟩
    else
      none

/-- The fetch step `fetch_datos`, `generate_dashboard.py` lines 24-53, parameterized by
the per-identifier outcome of `get_datos_variable`. -/
def fetch_datos (outcome : Int → BuildOut) : List (Int × Entry) :=
  VARIABLES.foldl
    (fun datos p =>
      match tryEntry p.2 (outcome p.1) with
      | some e => dictInsert datos p.1 e
      | none => datos)
    []

/-- Spec encoding: a record list as the flat-list envelope
`{"results": [...]}`. -/
def flatEnv (rs : List (List (String × Json))) : Json :=
  .obj [("results", .arr (rs.map .obj))]

/-- Spec encoding: a record list as the mapping-with-`detalle` envelope
`{"results": {"detalle": [...]}}`. -/
def detalleMapEnv (rs : List (List (String × Json))) : Json :=
  .obj [("results", .obj [("detalle", .arr (rs.map .obj))])]

/-- Spec encoding: a record list as the singleton-list-with-`detalle`
envelope `{"results": [{"detalle": [...]}]}`. -/
def detalleListEnv (rs : List (List (String × Json))) : Json :=
  .obj [("results", .arr [.obj [("detalle", .arr (rs.map .obj))]])]

/-- The stability property claimed for the sort: for each date, the rows
carrying that date appear in the output in exactly their input order. -/
def stableFor (rs : List Json) (ks' : List (Option Int × Json)) : Prop :=
  ∀ ks, keyedRows rs = .ok ks →
    ∀ d : Int, ks'.filter (fun p => p.1 == some d)
      = ks.filter (fun p => p.1 == some d)

/-- Two records sharing one date, distinguished by their `valor`. -/
def dupDateRows : List Json :=
  [.obj [("fecha", .str "2024-01-01"), ("valor", .num 1)],
   .obj [("fecha", .str "2024-01-01"), ("valor", .num 2)]]

/-- The keyed rows of `dupDateRows`. -/
def dupDateKeyed : List (Option Int × Json) :=
  [(some 20240101, .obj [("fecha", .str "2024-01-01"), ("valor", .num 1)]),
   (some 20240101, .obj [("fecha", .str "2024-01-01"), ("valor", .num 2)])]

/-- A date-sorted output of `dupDateRows` with the equal-dated rows
swapped — admissible for an unstable sort. -/
def dupDateSwapped : List (Option Int × Json) :=
  [(some 20240101, .obj [("fecha", .str "2024-01-01"), ("valor", .num 2)]),
   (some 20240101, .obj [("fecha", .str "2024-01-01"), ("valor", .num 1)])]

/-- A concrete outcome assignment for exercising `fetch_datos`: variable
1 succeeds with one row, every other variable's fetch raises. -/
def oneGoodOutcome : Int → BuildOut := fun i =>
  if i = 1 then
    .sortedFrame
      [(some 20240101, .obj [("fecha", .str "2024-01-01"), ("valor", .num 3)])]
  else
    .raised (.httpError 500 "Error for url: 500")

/-! ## Helper lemmas -/

/-- Python's `key in dict` test agrees with lookup success. -/
theorem any_key_eq_isSome_lookup (fields : List (String × Json)) (k : String) :
    (fields.any fun p => p.1 == k) = (fields.lookup k).isSome := by
  induction fields with
  | nil => rfl
  | cons q t ih =>
    obtain ⟨a, b⟩ := q
    by_cases h : k = a
    · subst h
      simp [List.lookup]
    · simp [List.lookup, ih, beq_false_of_ne (Ne.symm h), beq_false_of_ne h]

/-- A row's key test agrees with its cell lookup. -/
theorem hasKey_fecha_eq_isSome (r : Json) :
    hasKey r "fecha" = (fechaCell r).isSome := by
  cases r with
  | obj fields => simp [hasKey, fechaCell, any_key_eq_isSome_lookup]
  | null => rfl
  | bool _ => rfl
  | num _ => rfl
  | str _ => rfl
  | arr _ => rfl

/-- A row with a `fecha` cell is a mapping with a `fecha` key, so the
frame has a `fecha` column as soon as one row has the cell. -/
theorem hasFechaCol_of_cell {rs : List Json} {r : Json} {v : Json}
    (hmem : r ∈ rs) (hcell : fechaCell r = some v) :
    hasFechaCol rs = true := by
  unfold hasFechaCol
  rw [List.any_eq_true]
  exact ⟨r, hmem, by rw [hasKey_fecha_eq_isSome, hcell]; rfl⟩

theorem except_ok_bind {ε α β : Type} (a : α) (f : α → Except ε β) :
    (Except.ok a : Except ε α) >>= f = f a := rfl

theorem except_error_bind {ε α β : Type} (e : ε) (f : α → Except ε β) :
    (Except.error e : Except ε α) >>= f = Except.error e := rfl

/-- The four precedence cases of `normalize` on an object envelope. -/
theorem normalize_spec (fields : List (String × Json)) :
    (fields.lookup "results" = none →
      normalize (.obj fields) = .ok (.rows [])) ∧
    (∀ rfields ds, fields.lookup "results" = some (.obj rfields) →
      rfields.lookup "detalle" = some (.arr ds) →
      normalize (.obj fields) = .ok (.rows ds)) ∧
    (∀ rfirst rest ds,
      fields.lookup "results" = some (.arr (.obj rfirst :: rest)) →
      rfirst.lookup "detalle" = some (.arr ds) →
      normalize (.obj fields) = .ok (.rows ds)) ∧
    (∀ xs, fields.lookup "results" = some (.arr xs) →
      (xs = [] ∨ ∃ hd tl, xs = hd :: tl ∧ pyContains hd "detalle" = .ok false) →
      normalize (.obj fields) = .ok (.rows xs)) := by
  refine ⟨?_, ?_, ?_, ?_⟩
  · intro h
    unfold normalize
    have hc : pyContains (.obj fields) "results" = .ok false := by
      simp [pyContains, any_key_eq_isSome_lookup, h]
    simp only [hc, except_ok_bind]
    rfl
  · intro rfields ds hres hdet
    unfold normalize
    have hc : pyContains (.obj fields) "results" = .ok true := by
      simp [pyContains, any_key_eq_isSome_lookup, hres]
    have hi : pyIndex (.obj fields) "results" = .ok (.obj rfields) := by
      simp [pyIndex, hres]
    have hd : rfields.any (fun p => p.1 == "detalle") = true := by
      rw [any_key_eq_isSome_lookup, hdet]
      rfl
    simp only [hc, except_ok_bind, if_true, hi, hd, hdet, pdDataFrame,
      Option.getD_some]
    rfl
  · intro rfirst rest ds hres hdet
    unfold normalize
    have hc : pyContains (.obj fields) "results" = .ok true := by
      simp [pyContains, any_key_eq_isSome_lookup, hres]
    have hi : pyIndex (.obj fields) "results"
        = .ok (.arr (.obj rfirst :: rest)) := by
      simp [pyIndex, hres]
    have hd : pyContains (.obj rfirst) "detalle" = .ok true := by
      simp [pyContains, any_key_eq_isSome_lookup, hdet]
    have hid : pyIndex (.obj rfirst) "detalle" = .ok (.arr ds) := by
      simp [pyIndex, hdet]
    simp only [hc, except_ok_bind, if_true, hi, hd, hid, pdDataFrame]
    rfl
  · intro xs hres hcase
    unfold normalize
    have hc : pyContains (.obj fields) "results" = .ok true := by
      simp [pyContains, any_key_eq_isSome_lookup, hres]
    have hi : pyIndex (.obj fields) "results" = .ok (.arr xs) := by
      simp [pyIndex, hres]
    rcases hcase with hnil | ⟨hd, tl, hcons, hfalse⟩
    · subst hnil
      simp only [hc, except_ok_bind, if_true, hi]
      rfl
    · subst hcons
      simp only [hc, except_ok_bind, if_true, hi, hfalse]
      rfl

theorem keyMem_append_single {α : Type} (m : List (Int × α)) (k i : Int)
    (v : α) :
    keyMem (m ++ [(k, v)]) i = (keyMem m i || k == i) := by
  simp [keyMem, List.any_append]

theorem dictInsert_fresh {α : Type} (m : List (Int × α)) (k : Int) (v : α)
    (h : keyMem m k = false) :
    dictInsert m k v = m ++ [(k, v)] := by
  unfold dictInsert
  rw [if_neg]
  intro hc
  rw [keyMem] at h
  rw [h] at hc
  cases hc

theorem dictGet_append_single_ne {α : Type} (m : List (Int × α)) (k i : Int)
    (v : α) (h : k ≠ i) :
    dictGet (m ++ [(k, v)]) i = dictGet m i := by
  induction m with
  | nil =>
    simp [dictGet, List.find?, beq_false_of_ne h]
  | cons q t ih =>
    by_cases hq : (q.1 == i) = true
    · simp only [dictGet, List.cons_append, List.find?, hq]
    · rw [Bool.not_eq_true] at hq
      simp only [dictGet, List.cons_append, List.find?, hq]
      exact ih

theorem dictGet_append_single_self {α : Type} (m : List (Int × α)) (k : Int)
    (v : α) (h : keyMem m k = false) :
    dictGet (m ++ [(k, v)]) k = some v := by
  induction m with
  | nil => simp [dictGet, List.find?]
  | cons q t ih =>
    simp only [keyMem, List.any_cons, Bool.or_eq_false_iff] at h
    simp only [dictGet, List.cons_append, List.find?, h.1]
    exact ih h.2

theorem fold_insert_get_preserved {α : Type} (g : Int → α) :
    ∀ (ids : List Int) (m : List (Int × α)) (i : Int), ids.Nodup →
      i ∉ ids → (∀ j ∈ ids, keyMem m j = false) →
      dictGet (ids.foldl (fun acc j => dictInsert acc j (g j)) m) i
        = dictGet m i := by
  intro ids
  induction ids with
  | nil => intro m i _ _ _; rfl
  | cons j t ih =>
    intro m i hnd hni hfresh
    rw [List.foldl_cons,
      dictInsert_fresh m j (g j) (hfresh j (List.mem_cons_self j t))]
    rw [ih (m ++ [(j, g j)]) i (List.Nodup.of_cons hnd)
      (fun ht => hni (List.mem_cons_of_mem j ht)) ?_]
    · exact dictGet_append_single_ne m j i (g j)
        (fun he => hni (he ▸ List.mem_cons_self j t))
    · intro j' hj'
      rw [keyMem_append_single, hfresh j' (List.mem_cons_of_mem j hj'),
        Bool.false_or]
      have : j ≠ j' := by
        intro he
        exact (List.nodup_cons.mp hnd).1 (he ▸ hj')
      simp [this]

theorem fold_insert_get {α : Type} (g : Int → α) :
    ∀ (ids : List Int) (m : List (Int × α)), ids.Nodup →
      (∀ j ∈ ids, keyMem m j = false) →
      ∀ i ∈ ids,
        dictGet (ids.foldl (fun acc j => dictInsert acc j (g j)) m) i
          = some (g i) := by
  intro ids
  induction ids with
  | nil => intro m _ _ i hi; cases hi
  | cons j t ih =>
    intro m hnd hfresh i hi
    have hmj : keyMem m j = false := hfresh j (List.mem_cons_self j t)
    have hfresh' : ∀ j' ∈ t, keyMem (m ++ [(j, g j)]) j' = false := by
      intro j' hj'
      rw [keyMem_append_single, hfresh j' (List.mem_cons_of_mem j hj'),
        Bool.false_or]
      have : j ≠ j' := by
        intro he
        exact (List.nodup_cons.mp hnd).1 (he ▸ hj')
      simp [this]
    rw [List.foldl_cons, dictInsert_fresh m j (g j) hmj]
    rcases List.mem_cons.mp hi with he | ht
    · subst he
      rw [fold_insert_get_preserved g t (m ++ [(i, g i)]) i
        (List.Nodup.of_cons hnd) (List.nodup_cons.mp hnd).1 hfresh']
      exact dictGet_append_single_self m i (g i) hmj
    · exact ih (m ++ [(j, g j)]) (List.Nodup.of_cons hnd) hfresh' i ht

theorem fold_insert_keys {α : Type} (g : Int → α) :
    ∀ (ids : List Int) (m : List (Int × α)), ids.Nodup →
      (∀ j ∈ ids, keyMem m j = false) →
      (ids.foldl (fun acc j => dictInsert acc j (g j)) m).map Prod.fst
        = m.map Prod.fst ++ ids := by
  intro ids
  induction ids with
  | nil => intro m _ _; simp
  | cons j t ih =>
    intro m hnd hfresh
    have hmj : keyMem m j = false := hfresh j (List.mem_cons_self j t)
    have hfresh' : ∀ j' ∈ t, keyMem (m ++ [(j, g j)]) j' = false := by
      intro j' hj'
      rw [keyMem_append_single, hfresh j' (List.mem_cons_of_mem j hj'),
        Bool.false_or]
      have : j ≠ j' := by
        intro he
        exact (List.nodup_cons.mp hnd).1 (he ▸ hj')
      simp [this]
    rw [List.foldl_cons, dictInsert_fresh m j (g j) hmj,
      ih (m ++ [(j, g j)]) (List.Nodup.of_cons hnd) hfresh']
    simp

/-- The orchestrator's loop body always stores `catchOutcome`. -/
theorem gmv_eq_fold (outcome : Int → BuildOut) (ids : List Int) :
    get_multiple_variables outcome ids
      = ids.foldl (fun acc j => dictInsert acc j (catchOutcome outcome j)) [] := by
  unfold get_multiple_variables
  congr 1
  funext acc j
  unfold catchOutcome
  cases outcome j <;> rfl

/-- An unparsable `fecha` cell anywhere in the record list makes the
eager column conversion raise. -/
theorem keyedRows_error_of_bad (rs : List Json) (r : Json) (e : Exc)
    (hmem : r ∈ rs) (hbad : toDatetime (fechaCell r) = .error e) :
    ∃ e', keyedRows rs = .error e' := by
  induction rs with
  | nil => cases hmem
  | cons x t ih =>
    unfold keyedRows
    simp only [List.mapM_cons]
    rcases List.mem_cons.mp hmem with hx | ht
    · subst hx
      rw [hbad]
      exact ⟨e, rfl⟩
    · cases hx : toDatetime (fechaCell x) with
      | error e'' => exact ⟨e'', rfl⟩
      | ok k =>
        obtain ⟨e', he'⟩ := ih ht
        unfold keyedRows at he'
        rw [he']
        exact ⟨e', rfl⟩

/-! ## Claim theorems -/

/-- C1: normalization resolves the envelope in exactly the documented
precedence: absent `results` gives the empty record list; a mapping
`results` containing `detalle` gives that nested list; a non-empty list
`results` whose first element contains `detalle` gives that first
element's nested list; otherwise the `results` list itself is the flat
record list. -/
theorem c1_normalize_precedence (fields : List (String × Json)) :
    (fields.lookup "results" = none →
      normalize (.obj fields) = .ok (.rows [])) ∧
    (∀ rfields ds, fields.lookup "results" = some (.obj rfields) →
      rfields.lookup "detalle" = some (.arr ds) →
      normalize (.obj fields) = .ok (.rows ds)) ∧
    (∀ rfirst rest ds,
      fields.lookup "results" = some (.arr (.obj rfirst :: rest)) →
      rfirst.lookup "detalle" = some (.arr ds) →
      normalize (.obj fields) = .ok (.rows ds)) ∧
    (∀ xs, fields.lookup "results" = some (.arr xs) →
      (xs = [] ∨ ∃ hd tl, xs = hd :: tl ∧ pyContains hd "detalle" = .ok false) →
      normalize (.obj fields) = .ok (.rows xs)) :=
  normalize_spec fields

/-- Witness for C1: all four precedence cases at concrete envelopes. -/
theorem c1_witness :
    normalize (.obj [("status", .num 200)]) = .ok (.rows []) ∧
    normalize (.obj [("results", .obj [("detalle", .arr [.num 7])])])
      = .ok (.rows [.num 7]) ∧
    normalize (.obj [("results", .arr [.obj [("detalle", .arr [.num 8])]])])
      = .ok (.rows [.num 8]) ∧
    normalize (.obj [("results", .arr [.obj [("valor", .num 9)]])])
      = .ok (.rows [.obj [("valor", .num 9)]]) :=
  ⟨(c1_normalize_precedence [("status", .num 200)]).1 (by decide),
   (c1_normalize_precedence [("results", .obj [("detalle", .arr [.num 7])])]).2.1
     [("detalle", .arr [.num 7])] [.num 7] (by decide) (by decide),
   (c1_normalize_precedence
       [("results", .arr [.obj [("detalle", .arr [.num 8])]])]).2.2.1
     [("detalle", .arr [.num 8])] [] [.num 8] (by decide) (by decide),
   (c1_normalize_precedence [("results", .arr [.obj [("valor", .num 9)]])]).2.2.2
     [.obj [("valor", .num 9)]] (by decide)
     (Or.inr ⟨.obj [("valor", .num 9)], [], rfl, by decide⟩)⟩

/-- C10: for the variable identifier `0`, both the metadata and the
monetary-data URL builders produce the collection endpoint without any
identifier in the path, exactly as when no identifier is supplied,
because `if id_variable:` tests Python truthiness and `0` is falsy. -/
theorem c10_zero_id_collection_url :
    get_variables_monetarias_url (some 0) = get_variables_monetarias_url none ∧
    get_variables_monetarias_url (some 0) = BASE_URL ++ "/Monetarias" ∧
    get_metodologia_url (some 0) = get_metodologia_url none ∧
    get_metodologia_url (some 0) = BASE_URL ++ "/Metodologia" :=
  ⟨rfl, rfl, rfl, rfl⟩

/-- C7: building a time series from an empty record list returns the
empty frame (an empty time series) and raises no error. -/
theorem c7_empty_records_empty_series :
    ∀ out : BuildOut, buildRel [] out →
      out = .frame [] ∧ out.isEmptyDf = true := by
  intro out h
  simp only [buildRel, List.isEmpty_nil, Bool.not_true, Bool.false_and,
    if_neg (by simp : ¬ (false = true))] at h
  exact ⟨h, by simp [h, BuildOut.isEmptyDf, List.isEmpty]⟩

/-- Witness for C7 at the unique outcome of the empty build. -/
theorem c7_witness :
    BuildOut.frame [] = BuildOut.frame [] ∧
    (BuildOut.frame []).isEmptyDf = true :=
  c7_empty_records_empty_series (.frame []) (by simp [buildRel])

/-- C9: a non-empty record list in which no record carries a `fecha` cell
is returned unchanged by the builder — the `'fecha' in df.columns` guard
skips parsing and sorting entirely, and no error is raised. -/
theorem c9_no_fecha_column_unchanged (rs : List Json) (_hne : rs ≠ [])
    (hno : ∀ r ∈ rs, fechaCell r = none) :
    ∀ out, buildRel rs out → out = .frame rs := by
  intro out h
  have hcol : hasFechaCol rs = false := by
    unfold hasFechaCol
    rw [List.any_eq_false]
    intro r hr
    rw [Bool.not_eq_true, hasKey_fecha_eq_isSome, hno r hr]
    rfl
  simp only [buildRel, hcol, Bool.and_false, if_neg (by simp : ¬ (false = true))] at h
  exact h

/-- Witness for C9 on a concrete record list without dates. -/
theorem c9_witness :
    BuildOut.frame [Json.obj [("valor", .num 3)]]
      = .frame [Json.obj [("valor", .num 3)]] :=
  c9_no_fecha_column_unchanged [.obj [("valor", .num 3)]] (by decide)
    (by intro r hr; simp at hr; simp [hr, fechaCell])
    (.frame [.obj [("valor", .num 3)]])
    (by unfold buildRel; rw [if_neg (by decide)])

/-- Counterexample to C5: for the one-record list whose record carries a
`detalle` key, the flat-list encoding is misclassified by the
list-with-`detalle` branch, so it does not normalize to the same record
list as the mapping encoding. -/
theorem c5_counterexample :
    normalize (flatEnv [[("detalle", .arr [])]])
      ≠ normalize (detalleMapEnv [[("detalle", .arr [])]]) := by decide

/-- C5 (amended): the three supported envelope encodings of an underlying
record list normalize to the same flat record list, provided the first
record (when one exists) does not itself carry the key `detalle`. -/
theorem c5_envelope_encodings_agree (rs : List (List (String × Json)))
    (h : ∀ r, rs.head? = some r → r.lookup "detalle" = none) :
    normalize (flatEnv rs) = .ok (.rows (rs.map .obj)) ∧
    normalize (detalleMapEnv rs) = .ok (.rows (rs.map .obj)) ∧
    normalize (detalleListEnv rs) = .ok (.rows (rs.map .obj)) := by
  refine ⟨?_, ?_, ?_⟩
  · cases rs with
    | nil =>
      exact (normalize_spec _).2.2.2 [] (by decide) (Or.inl rfl)
    | cons r t =>
      refine (normalize_spec _).2.2.2 (Json.obj r :: t.map .obj)
        (by simp [List.lookup]) ?_
      refine Or.inr ⟨.obj r, t.map .obj, rfl, ?_⟩
      have hr : r.lookup "detalle" = none := h r rfl
      simp [pyContains, any_key_eq_isSome_lookup, hr]
  · exact (normalize_spec _).2.1 [("detalle", .arr (rs.map .obj))]
      (rs.map .obj) (by simp [List.lookup]) (by simp [List.lookup])
  · exact (normalize_spec _).2.2.1 [("detalle", .arr (rs.map .obj))]
      [] (rs.map .obj) (by simp [List.lookup]) (by simp [List.lookup])

/-- Witness for C5 (amended) at a concrete two-record list. -/
theorem c5_witness :
    normalize (flatEnv [[("fecha", .str "2024-01-01"), ("valor", .num 3)],
                        [("fecha", .str "2024-01-02"), ("valor", .num 5)]])
      = .ok (.rows [.obj [("fecha", .str "2024-01-01"), ("valor", .num 3)],
                    .obj [("fecha", .str "2024-01-02"), ("valor", .num 5)]]) ∧
    normalize (detalleMapEnv [[("fecha", .str "2024-01-01"), ("valor", .num 3)],
                              [("fecha", .str "2024-01-02"), ("valor", .num 5)]])
      = .ok (.rows [.obj [("fecha", .str "2024-01-01"), ("valor", .num 3)],
                    .obj [("fecha", .str "2024-01-02"), ("valor", .num 5)]]) ∧
    normalize (detalleListEnv [[("fecha", .str "2024-01-01"), ("valor", .num 3)],
                               [("fecha", .str "2024-01-02"), ("valor", .num 5)]])
      = .ok (.rows [.obj [("fecha", .str "2024-01-01"), ("valor", .num 3)],
                    .obj [("fecha", .str "2024-01-02"), ("valor", .num 5)]]) :=
  c5_envelope_encodings_agree
    [[("fecha", .str "2024-01-01"), ("valor", .num 3)],
     [("fecha", .str "2024-01-02"), ("valor", .num 5)]]
    (by intro r hr; simp at hr; subst hr; decide)

/-- Counterexample to C4: a `304 Not Modified` response carrying a JSON
body is a non-2xx HTTP status (and is not auto-redirected, having no
`Location` target), yet `raise_for_status` does not raise for it — the
transport call succeeds instead of surfacing a `TransportError`. -/
theorem c4_counterexample :
    is2xx 304 = false ∧
    session_get (.response 304 (some (.obj []))) = .ok (.obj []) := by decide

/-- C4 (amended): every network failure, every HTTP status in 400-599,
and every JSON-parse failure of a non-raising response surfaces as a
single error family (the `requests` transport exceptions), the HTTP case
carrying its status code and a message; statuses outside 400-599 —
including non-2xx ones such as 304 — are not raised on and proceed to
JSON parsing. -/
theorem c4_transport_error_surface :
    (∀ msg, session_get (.connFail msg) = .error (.connectionError msg)) ∧
    (∀ status body, 400 ≤ status → status < 600 →
      session_get (.response status body)
        = .error (.httpError status ("Error for url: " ++ toString status))) ∧
    (∀ status, raiseForStatus status = false →
      session_get (.response status none)
        = .error (.jsonDecodeError "Expecting value")) ∧
    (∀ r e, session_get r = .error e → e.isTransport = true) := by
  refine ⟨fun msg => rfl, ?_, ?_, ?_⟩
  · intro status body h4 h6
    have hr : raiseForStatus status = true := by
      unfold raiseForStatus
      rcases Nat.lt_or_ge status 500 with h | h
      · simp [h4, h]
      · simp [h, h6]
    simp only [session_get]
    rw [if_pos hr]
  · intro status hr
    simp only [session_get]
    rw [if_neg (by simp [hr])]
  · intro r e h
    cases r with
    | connFail msg =>
      simp only [session_get] at h
      cases h
      rfl
    | response status body =>
      simp only [session_get] at h
      by_cases hr : raiseForStatus status = true
      · rw [if_pos hr] at h
        cases h
        rfl
      · rw [if_neg hr] at h
        cases body with
        | none => cases h; rfl
        | some j => cases h

/-- Witness for C4 (amended): a network failure, a 500 response, and an
unparsable 200 body all surface as transport errors. -/
theorem c4_witness :
    session_get (.connFail "refused") = .error (.connectionError "refused") ∧
    session_get (.response 500 (some (.obj [])))
      = .error (.httpError 500 ("Error for url: " ++ toString 500)) ∧
    session_get (.response 200 none) = .error (.jsonDecodeError "Expecting value") ∧
    (Exc.connectionError "refused").isTransport = true :=
  ⟨c4_transport_error_surface.1 "refused",
   c4_transport_error_surface.2.1 500 (some (.obj [])) (by decide) (by decide),
   c4_transport_error_surface.2.2.1 200 (by decide),
   c4_transport_error_surface.2.2.2 (.connFail "refused") _
     (c4_transport_error_surface.1 "refused")⟩

/-- Counterexample to C3: `df.sort_values('fecha')` uses pandas' default
`kind='quicksort'`, which pandas documents as not stable, so the build
relation admits a date-sorted output in which two records with equal
dates are swapped relative to their input order. -/
theorem c3_counterexample :
    buildRel dupDateRows (.sortedFrame dupDateSwapped) ∧
    ¬ stableFor dupDateRows dupDateSwapped := by
  constructor
  · unfold buildRel
    rw [if_pos (by decide)]
    have hk : keyedRows dupDateRows = .ok dupDateKeyed := by decide
    rw [hk]
    refine ⟨dupDateSwapped, ?_, by decide, rfl⟩
    show dupDateKeyed.Perm dupDateSwapped
    unfold dupDateKeyed dupDateSwapped
    exact List.Perm.swap _ _ _
  · intro h
    have := h dupDateKeyed (by decide) 20240101
    exact absurd this (by decide)

/-- C3 (amended): whenever the builder sorts, the output is some
permutation of the date-keyed input records in non-decreasing date
order; the relative order of records with equal dates is not
guaranteed, because the sort uses pandas' unstable default quicksort. -/
theorem c3_sorted_permutation (rs : List Json) (out : BuildOut)
    (ks : List (Option Int × Json)) (h : buildRel rs out)
    (hout : out = .sortedFrame ks) :
    sortedByFecha ks = true ∧
    ∃ keyed, keyedRows rs = .ok keyed ∧ keyed.Perm ks := by
  subst hout
  unfold buildRel at h
  split at h
  · split at h
    · exact absurd h (by simp)
    · rename_i heq
      obtain ⟨ks'', hperm, hsort, he⟩ := h
      have hk : ks'' = ks := by
        injection he with he'
        exact he'.symm
      subst hk
      exact ⟨hsort, _, heq, hperm⟩
  · exact absurd h (by simp)

/-- Witness for C3 (amended): the spec's out-of-order two-record
scenario, sorted ascending. -/
theorem c3_witness :
    sortedByFecha
      [(some 20240101, .obj [("fecha", .str "2024-01-01"), ("valor", .num 3)]),
       (some 20240102, .obj [("fecha", .str "2024-01-02"), ("valor", .num 5)])]
      = true ∧
    ∃ keyed,
      keyedRows [.obj [("fecha", .str "2024-01-02"), ("valor", .num 5)],
                 .obj [("fecha", .str "2024-01-01"), ("valor", .num 3)]]
        = .ok keyed ∧
      keyed.Perm
        [(some 20240101, .obj [("fecha", .str "2024-01-01"), ("valor", .num 3)]),
         (some 20240102, .obj [("fecha", .str "2024-01-02"), ("valor", .num 5)])] :=
  c3_sorted_permutation
    [.obj [("fecha", .str "2024-01-02"), ("valor", .num 5)],
     .obj [("fecha", .str "2024-01-01"), ("valor", .num 3)]]
    (.sortedFrame
      [(some 20240101, .obj [("fecha", .str "2024-01-01"), ("valor", .num 3)]),
       (some 20240102, .obj [("fecha", .str "2024-01-02"), ("valor", .num 5)])])
    [(some 20240101, .obj [("fecha", .str "2024-01-01"), ("valor", .num 3)]),
     (some 20240102, .obj [("fecha", .str "2024-01-02"), ("valor", .num 5)])]
    (by
      unfold buildRel
      rw [if_pos (by decide)]
      have hk : keyedRows
          [.obj [("fecha", .str "2024-01-02"), ("valor", .num 5)],
           .obj [("fecha", .str "2024-01-01"), ("valor", .num 3)]]
          = .ok
            [(some 20240102, .obj [("fecha", .str "2024-01-02"), ("valor", .num 5)]),
             (some 20240101, .obj [("fecha", .str "2024-01-01"), ("valor", .num 3)])] := by
        decide
      rw [hk]
      refine ⟨[(some 20240101,
          Json.obj [("fecha", .str "2024-01-01"), ("valor", .num 3)]),
        (some 20240102,
          Json.obj [("fecha", .str "2024-01-02"), ("valor", .num 5)])],
        List.Perm.swap _ _ _, by decide, rfl⟩)
    rfl

/-- C2: for distinct requested identifiers and any per-identifier
pipeline outcomes, the batch returns a result map with exactly one entry
per requested identifier, in order, and every identifier whose pipeline
raised maps to an empty frame.  The orchestrator itself is a total
function — the `except Exception` branch converts every raised error into
an empty-frame entry, so the batch never raises. -/
theorem c2_batch_isolation (outcome : Int → BuildOut) (ids : List Int)
    (h : ids.Nodup) :
    (get_multiple_variables outcome ids).map Prod.fst = ids ∧
    ∀ i e, i ∈ ids → outcome i = .raised e →
      dictGet (get_multiple_variables outcome ids) i = some (.frame []) := by
  rw [gmv_eq_fold]
  constructor
  · have := fold_insert_keys (catchOutcome outcome) ids [] h
      (fun j _ => rfl)
    simpa using this
  · intro i e hi hout
    rw [fold_insert_get (catchOutcome outcome) ids [] h (fun j _ => rfl) i hi]
    unfold catchOutcome
    rw [hout]

/-- Witness for C2: two identifiers, the first raising a transport
error, give a two-entry map whose failing entry is the empty frame. -/
theorem c2_witness :
    (get_multiple_variables
        (fun i => if i = 1 then .raised (.connectionError "refused")
          else .frame [.null]) [1, 2]).map Prod.fst = [1, 2] ∧
    dictGet (get_multiple_variables
        (fun i => if i = 1 then .raised (.connectionError "refused")
          else .frame [.null]) [1, 2]) 1 = some (.frame []) :=
  ⟨(c2_batch_isolation
      (fun i => if i = 1 then .raised (.connectionError "refused")
        else .frame [.null]) [1, 2] (by decide)).1,
   (c2_batch_isolation
      (fun i => if i = 1 then .raised (.connectionError "refused")
        else .frame [.null]) [1, 2] (by decide)).2
     1 (.connectionError "refused") (by decide) (by decide)⟩

/-- C6: a record whose `fecha` cell is unparsable makes the whole build
for that variable raise — the eager `pd.to_datetime` conversion fails the
entire series, no partial frame with the bad record skipped is produced —
and the failure is absorbed only at the batch orchestrator, whose entry
for that variable becomes the empty frame. -/
theorem c6_bad_date_aborts_build (rs : List Json) (r : Json) (v : Json)
    (e : Exc) (hmem : r ∈ rs) (hcell : fechaCell r = some v)
    (hbad : toDatetime (some v) = .error e) :
    ∀ out, buildRel rs out →
      (∃ e', out = .raised e') ∧
      ∀ (outcome : Int → BuildOut) (ids : List Int) (i : Int),
        ids.Nodup → i ∈ ids → outcome i = out →
        dictGet (get_multiple_variables outcome ids) i = some (.frame []) := by
  intro out hb
  have hraised : ∃ e', out = .raised e' := by
    unfold buildRel at hb
    rw [if_pos] at hb
    · obtain ⟨e', he'⟩ := keyedRows_error_of_bad rs r e hmem (hcell ▸ hbad)
      rw [he'] at hb
      exact ⟨e', hb⟩
    · rw [hasFechaCol_of_cell hmem hcell, Bool.and_true, Bool.not_eq_true']
      cases rs with
      | nil => cases hmem
      | cons x t => rfl
  refine ⟨hraised, ?_⟩
  intro outcome ids i hnd hi hout
  rw [gmv_eq_fold,
    fold_insert_get (catchOutcome outcome) ids [] hnd (fun j _ => rfl) i hi]
  obtain ⟨e', he'⟩ := hraised
  unfold catchOutcome
  rw [hout, he']

/-- Witness for C6: a two-record list whose second date is unparsable
raises, and the orchestrator stores an empty frame for its variable. -/
theorem c6_witness :
    (∃ e', BuildOut.raised (Exc.parseError "primer trimestre")
      = .raised e') ∧
    ∀ (outcome : Int → BuildOut) (ids : List Int) (i : Int),
      ids.Nodup → i ∈ ids →
      outcome i = .raised (.parseError "primer trimestre") →
      dictGet (get_multiple_variables outcome ids) i = some (.frame []) :=
  c6_bad_date_aborts_build
    [.obj [("fecha", .str "2024-01-01"), ("valor", .num 1)],
     .obj [("fecha", .str "primer trimestre"), ("valor", .num 2)]]
    (.obj [("fecha", .str "primer trimestre"), ("valor", .num 2)])
    (.str "primer trimestre") (.parseError "primer trimestre")
    (by decide) (by decide) (by decide)
    (.raised (.parseError "primer trimestre"))
    (by
      unfold buildRel
      rw [if_pos (by decide)]
      have hk : keyedRows
          [.obj [("fecha", .str "2024-01-01"), ("valor", .num 1)],
           .obj [("fecha", .str "primer trimestre"), ("valor", .num 2)]]
          = .error (.parseError "primer trimestre") := by decide
      rw [hk])

theorem keyMem_map_update {α : Type} (m : List (Int × α)) (k i : Int)
    (v : α) :
    keyMem (m.map fun p => if p.1 == k then (k, v) else p) i = keyMem m i := by
  induction m with
  | nil => rfl
  | cons q t ih =>
    simp only [keyMem, List.map_cons, List.any_cons] at *
    rw [ih]
    by_cases hq : (q.1 == k) = true
    · rw [if_pos hq]
      have hqk : q.1 = k := by
        have := hq
        simpa using this
      rw [hqk]
    · rw [if_neg (by simp [hq])]

theorem keyMem_dictInsert {α : Type} (m : List (Int × α)) (k i : Int)
    (v : α) :
    keyMem (dictInsert m k v) i = true ↔ (keyMem m i = true ∨ k = i) := by
  unfold dictInsert
  split
  next hpres =>
    rw [keyMem_map_update]
    constructor
    · exact Or.inl
    · rintro (h | rfl)
      · exact h
      · exact hpres
  next _ =>
    rw [keyMem_append_single]
    simp

theorem tryEntry_ne_none_sorted (info : VarInfo) (df : BuildOut)
    (h : tryEntry info df ≠ none) :
    ∃ ks, df = .sortedFrame ks ∧ ks ≠ [] := by
  cases df with
  | raised e => exact absurd rfl h
  | frame rs => exact absurd rfl h
  | sortedFrame ks =>
    cases ks with
    | nil => exact absurd rfl h
    | cons p t => exact ⟨p :: t, rfl, by simp⟩

theorem tryEntry_none_of_failed (info : VarInfo) (df : BuildOut)
    (h : (∃ e, df = .raised e) ∨ df.isEmptyDf = true) :
    tryEntry info df = none := by
  rcases h with ⟨e, rfl⟩ | hemp
  · rfl
  · cases df with
    | raised e => rfl
    | frame rs => rfl
    | sortedFrame ks =>
      cases ks with
      | nil => rfl
      | cons p t => simp [BuildOut.isEmptyDf, List.isEmpty] at hemp

theorem fetch_fold_mem (outcome : Int → BuildOut) :
    ∀ (l : List (Int × VarInfo)) (m : List (Int × Entry)) (i : Int),
      keyMem (l.foldl (fun datos p =>
          match tryEntry p.2 (outcome p.1) with
          | some en => dictInsert datos p.1 en
          | none => datos) m) i = true ↔
        (keyMem m i = true ∨
          ∃ info, (i, info) ∈ l ∧ tryEntry info (outcome i) ≠ none) := by
  intro l
  induction l with
  | nil =>
    intro m i
    simp
  | cons p t ih =>
    intro m i
    rw [List.foldl_cons]
    cases htp : tryEntry p.2 (outcome p.1) with
    | none =>
      rw [ih]
      constructor
      · rintro (h | ⟨info, hmem, hcond⟩)
        · exact Or.inl h
        · exact Or.inr ⟨info, List.mem_cons_of_mem p hmem, hcond⟩
      · rintro (h | ⟨info, hmem, hcond⟩)
        · exact Or.inl h
        · rcases List.mem_cons.mp hmem with he | ht
          · exfalso
            apply hcond
            have h1 : p.1 = i := by rw [← he]
            have h2 : p.2 = info := by rw [← he]
            rw [← h2, ← h1]
            exact htp
          · exact Or.inr ⟨info, ht, hcond⟩
    | some en =>
      rw [ih]
      constructor
      · rintro (h | ⟨info, hmem, hcond⟩)
        · rcases (keyMem_dictInsert m p.1 i en).mp h with h' | hpi
          · exact Or.inl h'
          · refine Or.inr ⟨p.2, ?_, ?_⟩
            · rw [show (i, p.2) = p from by rw [← hpi]]
              exact List.mem_cons_self p t
            · rw [← hpi]
              rw [htp]
              simp
        · exact Or.inr ⟨info, List.mem_cons_of_mem p hmem, hcond⟩
      · rintro (h | ⟨info, hmem, hcond⟩)
        · exact Or.inl ((keyMem_dictInsert m p.1 i en).mpr (Or.inl h))
        · rcases List.mem_cons.mp hmem with he | ht
          · refine Or.inl ((keyMem_dictInsert m p.1 i en).mpr (Or.inr ?_))
            rw [← he]
          · exact Or.inr ⟨info, ht, hcond⟩

/-- C8: the report-input mapping contains an entry only for requested
identifiers whose pipeline succeeded with a non-empty frame; an
identifier whose pipeline raised, or whose frame came back empty, is
omitted from the mapping entirely, with no marker entry. -/
theorem c8_report_entries (outcome : Int → BuildOut) (i : Int) :
    (keyMem (fetch_datos outcome) i = true →
      (∀ e, outcome i ≠ .raised e) ∧ (outcome i).isEmptyDf = false) ∧
    (((∃ e, outcome i = .raised e) ∨ (outcome i).isEmptyDf = true) →
      keyMem (fetch_datos outcome) i = false) := by
  constructor
  · intro h
    unfold fetch_datos at h
    rw [fetch_fold_mem] at h
    rcases h with h | ⟨info, _, hcond⟩
    · simp [keyMem] at h
    · obtain ⟨ks, hks, hne⟩ := tryEntry_ne_none_sorted info _ hcond
      constructor
      · intro e he
        rw [he] at hks
        cases hks
      · rw [hks]
        cases ks with
        | nil => exact absurd rfl hne
        | cons q u => rfl
  · intro h
    have hnot : ¬ keyMem (fetch_datos outcome) i = true := by
      unfold fetch_datos
      rw [fetch_fold_mem]
      rintro (hm | ⟨info, _, hcond⟩)
      · simp [keyMem] at hm
      · exact hcond (tryEntry_none_of_failed info _ h)
    cases hkm : keyMem (fetch_datos outcome) i with
    | false => rfl
    | true => exact absurd hkm hnot

/-- Witness for C8: with variable 1 succeeding non-empty and variable 4's
fetch raising, the mapping holds variable 1 and omits variable 4. -/
theorem c8_witness :
    ((∀ e, oneGoodOutcome 1 ≠ .raised e) ∧
      (oneGoodOutcome 1).isEmptyDf = false) ∧
    keyMem (fetch_datos oneGoodOutcome) 4 = false :=
  ⟨(c8_report_entries oneGoodOutcome 1).1 (by decide),
   (c8_report_entries oneGoodOutcome 4).2
     (Or.inl ⟨.httpError 500 "Error for url: 500", by decide⟩)⟩

end BCRA
